import Mathlib

/-!
Verification of the superbrain-app frontend (src/src/store/appStore.ts,
src/src/components/SearchBar.tsx, src/src/components/ResultsList.tsx) against
its natural-language specification.  The TypeScript store and component
handlers are shallowly embedded: the Tauri backend reached through `invoke`
is modelled as a record of oracles each returning `Except String α`, numbers
become `Rat`/`Nat`, and the zustand `set`-merge becomes a pure state update.
The cognitive engine itself (think/remember/recall, memory types, get_status)
is not part of the frontend sources; where a claim depends on it, the engine
is modelled from the specification and marked so in the doc comment.
-/

namespace Superbrain

/-- Memory record as declared in src/src/store/appStore.ts (interface Memory). -/
structure Memory where
  id : String
  content : String
  similarity : Rat
  memory_type : String
deriving Repr, DecidableEq

/-- Think result as declared in src/src/store/appStore.ts (interface ThinkResult,
lines 11-17): five fields, including thought_id. -/
structure ThinkResult where
  response : String
  confidence : Rat
  thought_id : String
  memory_count : Nat
  ai_enhanced : Bool
deriving Repr, DecidableEq

/-- The field names of interface ThinkResult, in declaration order. -/
def thinkResultFields : List String :=
  ["response", "confidence", "thought_id", "memory_count", "ai_enhanced"]

/-- File search result as declared in src/src/store/appStore.ts (interface FileResult). -/
structure FileResult where
  path : String
  name : String
  chunk : String
  similarity : Rat
  file_type : String
deriving Repr, DecidableEq

/-- System status as declared in src/src/store/appStore.ts (interface SystemStatus,
lines 34-45).  Note the uptime field is named uptime_ms. -/
structure SystemStatus where
  status : String
  memory_count : Nat
  thought_count : Nat
  uptime_ms : Nat
  ai_provider : String
  ai_available : Bool
  embedding_provider : String
  learning_trend : String
  indexed_files : Nat
  indexed_chunks : Nat
deriving Repr, DecidableEq

/-- The field names of interface SystemStatus, in declaration order. -/
def systemStatusFields : List String :=
  ["status", "memory_count", "thought_count", "uptime_ms", "ai_provider",
   "ai_available", "embedding_provider", "learning_trend", "indexed_files",
   "indexed_chunks"]

/-- Settings as declared in src/src/store/appStore.ts (interface Settings). -/
structure Settings where
  ai_provider : String
  ollama_model : String
  claude_api_key : Option String
  hotkey : String
  indexed_folders : List String
  theme : String
  auto_start : Bool
  privacy_mode : Bool
  onboarded : Bool
deriving Repr, DecidableEq

/-- Search results bundle (interface SearchResults). -/
structure SearchResults where
  memories : List Memory
  files : List FileResult
  thinkResult : Option ThinkResult
deriving Repr, DecidableEq

/-- Clipboard entry (interface ClipboardEntry). -/
structure ClipboardEntry where
  content : String
  timestamp : Nat
deriving Repr, DecidableEq

/-- The two input modes of the store (field mode of AppState). -/
inductive Mode where
  | search
  | remember
deriving Repr, DecidableEq

/-- The data fields of the zustand store (interface AppState, lines 70-78). -/
structure AppState where
  query : String
  results : SearchResults
  isSearching : Bool
  recentMemories : List Memory
  status : Option SystemStatus
  settings : Option Settings
  clipboardHistory : List ClipboardEntry
  mode : Mode
deriving Repr, DecidableEq

/-- The Tauri backend reached through invoke, modelled as oracles that can fail
(a rejected promise is an error value).  The recall command is named recallOp
because recall is a reserved word in this development's library. -/
structure Backend where
  recallOp : String → Nat → Except String (List Memory)
  think : String → Except String ThinkResult
  search_files : String → Nat → Except String (List FileResult)
  remember : String → String → Rat → Except String String
  get_status : Except String SystemStatus
  update_settings : Settings → Except String Unit

/-- appStore.search (lines 109-128): sets query and isSearching, runs recall,
think and search_files in parallel with the search_files rejection recovered to
an empty list, stores the combined results on success, and on recall/think
failure only clears isSearching. -/
def storeSearch (b : Backend) (s : AppState) (q : String) : AppState :=
  let files := match b.search_files q 10 with
    | .ok fs => fs
    | .error _ => []
  match b.recallOp q 10, b.think q with
  | .ok mems, .ok tr =>
      { s with query := q, isSearching := false,
               results := { memories := mems, files := files, thinkResult := some tr } }
  | .error _, _ => { s with query := q, isSearching := false }
  | .ok _, .error _ => { s with query := q, isSearching := false }

/-- appStore.think (lines 152-155): forwards the backend result unchanged. -/
def storeThink (b : Backend) (input : String) : Except String ThinkResult :=
  b.think input

/-- appStore.loadStatus (lines 157-164): stores the status on success, leaves
state unchanged on failure. -/
def storeLoadStatus (b : Backend) (s : AppState) : AppState :=
  match b.get_status with
  | .ok st => { s with status := some st }
  | .error _ => s

/-- appStore.remember (lines 138-150): invokes the backend remember command with
importance defaulted to 0.7, refreshes status on success, swallows failure, and
returns void - the id minted by the backend is discarded. -/
def storeRemember (b : Backend) (s : AppState) (content ty : String)
    (importance : Option Rat) : AppState × Unit :=
  match b.remember content ty (importance.getD (7/10)) with
  | .ok _ => (storeLoadStatus b s, ())
  | .error _ => (s, ())

/-- appStore.updateSettings (lines 175-182): on backend success stores the new
settings; on failure logs and swallows the error, so the caller always observes
normal completion. -/
def storeUpdateSettings (b : Backend) (s : AppState) (st : Settings) :
    AppState × Except String Unit :=
  match b.update_settings st with
  | .ok _ => ({ s with settings := some st }, .ok ())
  | .error _ => (s, .ok ())

/-- appStore.clearResults (lines 212-214): zustand set merges, so only query and
results are replaced. -/
def clearResults (s : AppState) : AppState :=
  { s with query := "",
           results := { memories := [], files := [], thinkResult := none } }

/-- The JavaScript String.prototype.trim used by the SearchBar handlers:
whitespace is stripped from both ends.  Defined by structural recursion over
the character list so that it evaluates inside the kernel. -/
def jsTrim (s : String) : String :=
  ⟨((s.data.dropWhile Char.isWhitespace).reverse.dropWhile
      Char.isWhitespace).reverse⟩

/-- Commands the SearchBar handlers emit; scheduleSearch is the debounced
search(trimmed) set with setTimeout, searchNow the immediate search on Enter. -/
inductive SearchCmd where
  | setQueryCmd (q : String)
  | clearTimer
  | clearResultsCmd
  | scheduleSearch (q : String)
  | searchNow (q : String)
  | rememberCmd (content ty : String) (importance : Rat)
  | hideWindow
  | toggleMode
deriving Repr, DecidableEq

/-- SearchBar handleChange (SearchBar.tsx lines 12-30): always sets the query;
in remember mode returns before touching the timer; otherwise clears the timer,
clears the results for a whitespace-only value, else debounce-schedules
search(value.trim()). -/
def handleChange (mode : Mode) (value : String) : List SearchCmd :=
  let base := [SearchCmd.setQueryCmd value]
  if mode = Mode.remember then base
  else
    base ++ [SearchCmd.clearTimer] ++
      (if (jsTrim value).length = 0 then [SearchCmd.clearResultsCmd]
       else [SearchCmd.scheduleSearch (jsTrim value)])

/-- Keys SearchBar handleKeyDown distinguishes. -/
inductive Key where
  | escape
  | enter
  | tab
  | other
deriving Repr, DecidableEq

/-- SearchBar handleKeyDown (SearchBar.tsx lines 32-54): Escape clears or hides,
Enter with a non-whitespace query remembers (remember mode, type "semantic",
importance 0.7) or searches the trimmed query, Tab toggles the mode. -/
def handleKeyDown (key : Key) (query : String) (mode : Mode) : List SearchCmd :=
  match key with
  | .escape =>
      if query ≠ "" then [SearchCmd.clearResultsCmd, SearchCmd.setQueryCmd ""]
      else [SearchCmd.hideWindow]
  | .enter =>
      if jsTrim query ≠ "" then
        if mode = Mode.remember then
          [SearchCmd.rememberCmd (jsTrim query) "semantic" (7/10),
           SearchCmd.setQueryCmd ""]
        else [SearchCmd.searchNow (jsTrim query)]
      else []
  | .tab => [SearchCmd.toggleMode]
  | .other => []

/-- Modelled from the spec: the engine's semantic memory types are not under
src/ (the frontend only passes type strings and badges them); spec section 3
fixes exactly eight values: Semantic, Episodic, Procedural, Working, Meta,
Causal, Goal, Emotional. -/
inductive MemoryType where
  | Semantic
  | Episodic
  | Procedural
  | Working
  | Meta
  | Causal
  | Goal
  | Emotional
deriving Repr, DecidableEq

/-- The display name of a memory type, as used by the TypeBadge keys. -/
def MemoryType.name : MemoryType → String
  | .Semantic => "Semantic"
  | .Episodic => "Episodic"
  | .Procedural => "Procedural"
  | .Working => "Working"
  | .Meta => "Meta"
  | .Causal => "Causal"
  | .Goal => "Goal"
  | .Emotional => "Emotional"

/-- The eight semantic type names named by the spec, in its order. -/
def memoryTypeNames : List String :=
  ["Semantic", "Episodic", "Procedural", "Working", "Meta", "Causal", "Goal",
   "Emotional"]

/-- The keys of the TypeBadge colors record in
src/src/components/ResultsList.tsx (lines 151-161), in declaration order. -/
def typeBadgeKeys : List String :=
  ["Semantic", "Episodic", "Procedural", "Working", "Meta", "Causal", "Goal",
   "Emotional"]

/-- ASCII lowercasing by structural recursion over the character list, the
kernel-evaluable counterpart of String.toLower. -/
def lowerAscii (s : String) : String :=
  ⟨s.data.map Char.toLower⟩

/-- Modelled from the spec: the engine parses the caller-supplied type string
(the frontend sends lowercase names such as "semantic" and "working") into one
of the eight semantic types; an unknown string is rejected. -/
def parseMemoryType (s : String) : Option MemoryType :=
  match lowerAscii s with
  | "semantic" => some .Semantic
  | "episodic" => some .Episodic
  | "procedural" => some .Procedural
  | "working" => some .Working
  | "meta" => some .Meta
  | "causal" => some .Causal
  | "goal" => some .Goal
  | "emotional" => some .Emotional
  | _ => none

/-- Modelled from the spec: an engine-side memory record (id, content, semantic
type, importance); embedding and access metadata are not needed by the claims. -/
structure EngineMemory where
  id : String
  content : String
  memory_type : MemoryType
  importance : Rat
deriving Repr, DecidableEq

/-- Modelled from the spec: CognitiveEngine.remember parses the type string,
mints the given fresh id, appends the memory to the store and returns the id;
an unparseable type is rejected. -/
def engineRemember (store : List EngineMemory) (content ty : String)
    (importance : Rat) (freshId : String) :
    Option (List EngineMemory × String) :=
  match parseMemoryType ty with
  | some t =>
      some (store ++ [{ id := freshId, content := content, memory_type := t,
                        importance := importance }], freshId)
  | none => none

/-- Modelled from the spec: CognitiveEngine.recall returns ranked stored
memories; the similarity ranking over embeddings is abstracted away, so recall
returns the first k stored memories. -/
def engineRecall (store : List EngineMemory) (k : Nat) : List EngineMemory :=
  store.take k

/-- Modelled from the spec: the outcome of the optional AI-provider call made
during think - the provider may be unconfigured, fail, or time out. -/
inductive ProviderOutcome where
  | unavailable
  | failed
  | timedOut
  | ok (text : String)
deriving Repr, DecidableEq

/-- True when the provider produced no text (unavailable, failed or timed out). -/
def ProviderOutcome.failedOrUnavailable : ProviderOutcome → Bool
  | .ok _ => false
  | _ => true

/-- Modelled from the spec: the memory-only synthesis of a response from the
recalled memories (always non-empty text). -/
def memoryOnlyResponse (input : String) (recalled : List (EngineMemory × Rat)) :
    String :=
  match recalled with
  | [] => "No relevant memories about " ++ input ++ " yet."
  | rs =>
      "Based on " ++ toString rs.length ++ " memories: " ++
        String.intercalate "; " (rs.map (fun r => r.1.content))

/-- Modelled from the spec: confidence is computed from the recall similarity
scores, with a boost when the provider was used, clamped into the unit
interval. -/
def confidenceFrom (recalled : List (EngineMemory × Rat)) (aiUsed : Bool) : Rat :=
  let best := (recalled.map Prod.snd).foldr max 0
  min 1 (max 0 best + (if aiUsed then 1/10 else 0))

/-- Modelled from the spec: CognitiveEngine.think over an already-recalled
memory list.  When the provider answered, its text is used and ai_enhanced is
true; when the provider is unavailable, failed or timed out, the engine
degrades silently to the memory-only response with ai_enhanced false.  The
result type admits errors, and the provider branch never produces one. -/
def engineThink (recalled : List (EngineMemory × Rat))
    (provider : ProviderOutcome) (input tid : String) :
    Except String ThinkResult :=
  match provider with
  | .ok text =>
      .ok { response := text, confidence := confidenceFrom recalled true,
            thought_id := tid, memory_count := recalled.length,
            ai_enhanced := true }
  | _ =>
      .ok { response := memoryOnlyResponse input recalled,
            confidence := confidenceFrom recalled false,
            thought_id := tid, memory_count := recalled.length,
            ai_enhanced := false }

/-- Modelled from the spec: the engine state that get_status reads. -/
structure EngineState where
  memories : List EngineMemory
  thoughts : List ThinkResult
  uptimeMs : Nat
  aiProvider : String
  aiAvailable : Bool
  embeddingProvider : String
  learningTrend : String
  indexedFiles : Nat
  indexedChunks : Nat
deriving Repr, DecidableEq

/-- Modelled from the spec: the status record computed from the engine state. -/
def statusOf (e : EngineState) : SystemStatus :=
  { status := "ok", memory_count := e.memories.length,
    thought_count := e.thoughts.length, uptime_ms := e.uptimeMs,
    ai_provider := e.aiProvider, ai_available := e.aiAvailable,
    embedding_provider := e.embeddingProvider,
    learning_trend := e.learningTrend, indexed_files := e.indexedFiles,
    indexed_chunks := e.indexedChunks }

/-- Modelled from the spec: get_status is read-only introspection - it returns
the status record and leaves the engine state untouched. -/
def engineGetStatus (e : EngineState) : SystemStatus × EngineState :=
  (statusOf e, e)

/-- The initial store state (appStore.ts lines 96-104). -/
def state0 : AppState :=
  { query := "",
    results := { memories := [], files := [], thinkResult := none },
    isSearching := false, recentMemories := [], status := none,
    settings := none, clipboardHistory := [], mode := Mode.search }

/-- A concrete think result used as a fixture. -/
def trA : ThinkResult :=
  { response := "four", confidence := 9/10, thought_id := "t-1",
    memory_count := 2, ai_enhanced := false }

/-- A think result agreeing with trA on every field except thought_id. -/
def trB : ThinkResult :=
  { response := "four", confidence := 9/10, thought_id := "t-2",
    memory_count := 2, ai_enhanced := false }

/-- A concrete status record used as a fixture. -/
def status0 : SystemStatus :=
  { status := "ok", memory_count := 1, thought_count := 0, uptime_ms := 1000,
    ai_provider := "ollama", ai_available := true,
    embedding_provider := "hash", learning_trend := "stable",
    indexed_files := 0, indexed_chunks := 0 }

/-- A concrete settings record used as a fixture. -/
def settings0 : Settings :=
  { ai_provider := "ollama", ollama_model := "llama3", claude_api_key := none,
    hotkey := "Cmd+Shift+Space", indexed_folders := [], theme := "dark",
    auto_start := false, privacy_mode := false, onboarded := true }

/-- A settings record differing from settings0. -/
def settings1 : Settings :=
  { settings0 with theme := "light", privacy_mode := true }

/-- A concrete recalled memory used as a fixture. -/
def mem1 : Memory :=
  { id := "m-1", content := "Buy milk", similarity := 4/5,
    memory_type := "Semantic" }

/-- A backend on which every command succeeds. -/
def baseBackend : Backend :=
  { recallOp := fun _ _ => .ok [mem1],
    think := fun _ => .ok trA,
    search_files := fun _ _ => .ok [],
    remember := fun _ _ _ => .ok "id-0",
    get_status := .ok status0,
    update_settings := fun _ => .ok () }

/-- A backend whose remember command mints id "id-a". -/
def backendIdA : Backend :=
  { baseBackend with remember := fun _ _ _ => .ok "id-a" }

/-- A backend whose remember command mints id "id-b". -/
def backendIdB : Backend :=
  { baseBackend with remember := fun _ _ _ => .ok "id-b" }

/-- A backend whose search_files command rejects. -/
def failFilesBackend : Backend :=
  { baseBackend with search_files := fun _ _ => .error "file index offline" }

/-- A backend whose update_settings command rejects. -/
def failSettingsBackend : Backend :=
  { baseBackend with update_settings := fun _ => .error "disk full" }

/-- A store state already holding settings0. -/
def stateWithSettings : AppState :=
  { state0 with settings := some settings0 }

/-- A concrete engine memory used as a fixture. -/
def mem7 : EngineMemory :=
  { id := "m-7", content := "Buy milk", memory_type := MemoryType.Semantic,
    importance := 1/2 }

/-- A string has length zero exactly when it is the empty string. -/
theorem string_length_zero (s : String) : s.length = 0 ↔ s = "" := by
  cases s with
  | mk data => cases data <;> simp [String.length, String.ext_iff]

/-- Every memory type's display name is among the eight spec names. -/
theorem memoryType_name_mem (t : MemoryType) : t.name ∈ memoryTypeNames := by
  cases t <;> simp [MemoryType.name, memoryTypeNames]

/-- C1: for every input, think never fails because the optional AI provider is
unavailable, failed, or timed out: the provider failure is recovered by falling
back to the memory-only response and surfaced only as ai_enhanced = false on
the returned Thought, never as a think error. -/
theorem C1_think_never_fails_on_provider (recalled : List (EngineMemory × Rat))
    (input tid : String) (p : ProviderOutcome)
    (h : p.failedOrUnavailable = true) :
    engineThink recalled p input tid =
      Except.ok { response := memoryOnlyResponse input recalled,
                  confidence := confidenceFrom recalled false,
                  thought_id := tid, memory_count := recalled.length,
                  ai_enhanced := false } := by
  cases p <;> simp_all [engineThink, ProviderOutcome.failedOrUnavailable]

/-- Witness for C1 at a concrete failed provider call. -/
theorem C1_think_never_fails_on_provider_witness :
    ProviderOutcome.failed.failedOrUnavailable = true ∧
    engineThink [] ProviderOutcome.failed "What is 2+2?" "t-9" =
      Except.ok { response := memoryOnlyResponse "What is 2+2?" [],
                  confidence := confidenceFrom [] false, thought_id := "t-9",
                  memory_count := 0, ai_enhanced := false } :=
  ⟨rfl, C1_think_never_fails_on_provider [] "What is 2+2?" "t-9"
    ProviderOutcome.failed rfl⟩

/-- C2 counterexample: two ThinkResult values agree on response, confidence,
memory_count and ai_enhanced yet differ, because the record carries a fifth
field thought_id; so the returned Thought does not consist of exactly those
four fields and no others. -/
theorem C2_counterexample :
    trA.response = trB.response ∧ trA.confidence = trB.confidence ∧
    trA.memory_count = trB.memory_count ∧
    trA.ai_enhanced = trB.ai_enhanced ∧ trA ≠ trB ∧
    "thought_id" ∈ thinkResultFields := by
  refine ⟨rfl, rfl, rfl, rfl, ?_, by decide⟩
  intro h
  have hid : trA.thought_id = trB.thought_id :=
    congrArg ThinkResult.thought_id h
  simp [trA, trB] at hid

/-- C2 amended: the value returned by think is a ThinkResult consisting of
exactly the five fields response, confidence, thought_id, memory_count and
ai_enhanced: the declared field list is exactly those five names, and two
results agreeing on all five fields are equal. -/
theorem C2_think_result_exact_fields (a b : ThinkResult)
    (h1 : a.response = b.response) (h2 : a.confidence = b.confidence)
    (h3 : a.thought_id = b.thought_id) (h4 : a.memory_count = b.memory_count)
    (h5 : a.ai_enhanced = b.ai_enhanced) :
    a = b ∧
    thinkResultFields =
      ["response", "confidence", "thought_id", "memory_count",
       "ai_enhanced"] := by
  refine ⟨?_, rfl⟩
  cases a
  cases b
  simp_all

/-- Witness for C2 amended at a concrete pair. -/
theorem C2_think_result_exact_fields_witness :
    trA = trA ∧
    thinkResultFields =
      ["response", "confidence", "thought_id", "memory_count",
       "ai_enhanced"] :=
  C2_think_result_exact_fields trA trA rfl rfl rfl rfl rfl

/-- C3 counterexample: two backends whose remember commands mint different ids
produce identical caller-visible results from the store's remember, so the
exposed operation discards the id rather than returning it to its caller. -/
theorem C3_counterexample :
    backendIdA.remember "Buy milk" "semantic" (7/10) = Except.ok "id-a" ∧
    backendIdB.remember "Buy milk" "semantic" (7/10) = Except.ok "id-b" ∧
    storeRemember backendIdA state0 "Buy milk" "semantic" none =
      storeRemember backendIdB state0 "Buy milk" "semantic" none :=
  ⟨rfl, rfl, rfl⟩

/-- C3 amended: the store's remember delegates to the backend remember command
(importance defaulted to 0.7) and on success refreshes status, but it returns
void: the id minted by the backend is discarded, not returned to the caller. -/
theorem C3_remember_discards_id (b : Backend) (s : AppState)
    (content ty : String) (imp : Option Rat) (mid : String)
    (h : b.remember content ty (imp.getD (7/10)) = Except.ok mid) :
    storeRemember b s content ty imp = (storeLoadStatus b s, ()) := by
  simp [storeRemember, h]

/-- Witness for C3 amended at a concrete backend. -/
theorem C3_remember_discards_id_witness :
    storeRemember backendIdA state0 "Buy milk" "semantic" none =
      (storeLoadStatus backendIdA state0, ()) :=
  C3_remember_discards_id backendIdA state0 "Buy milk" "semantic" none
    "id-a" rfl

/-- C4: a query that is empty or whitespace-only after trimming is rejected
before embedding: neither the change handler (incremental typing) nor the key
handler (pressing Enter) ever emits a debounced or immediate search command
for it, in either mode and for any key. -/
theorem C4_whitespace_query_rejected (mode : Mode) (value : String) (key : Key)
    (h : jsTrim value = "") :
    (∀ q, SearchCmd.scheduleSearch q ∉ handleChange mode value) ∧
    (∀ q, SearchCmd.searchNow q ∉ handleChange mode value) ∧
    (∀ q, SearchCmd.scheduleSearch q ∉ handleKeyDown key value mode) ∧
    (∀ q, SearchCmd.searchNow q ∉ handleKeyDown key value mode) := by
  refine ⟨fun q => ?_, fun q => ?_, fun q => ?_, fun q => ?_⟩ <;>
    cases mode <;> cases key <;>
      simp [handleChange, handleKeyDown, h] <;> split <;> simp

/-- Witness for C4 at the concrete whitespace query. -/
theorem C4_whitespace_query_rejected_witness :
    jsTrim "   " = "" ∧
    SearchCmd.scheduleSearch "x" ∉ handleChange Mode.search "   " :=
  ⟨by decide,
   (C4_whitespace_query_rejected Mode.search "   " Key.enter
      (by decide)).1 "x"⟩

/-- C5 counterexample: the status record has no field named uptime - its
uptime field is named uptime_ms - so it does not contain the claimed field
set as stated. -/
theorem C5_counterexample :
    "uptime" ∉ systemStatusFields ∧ "uptime_ms" ∈ systemStatusFields := by
  decide

/-- C5 amended: get_status returns a record containing memory_count,
thought_count, uptime_ms, ai_provider, embedding_provider, indexed_files,
indexed_chunks and learning_trend, and it is read-only: it leaves the engine
state exactly as it was. -/
theorem C5_get_status_fields_and_readonly :
    ("memory_count" ∈ systemStatusFields ∧
     "thought_count" ∈ systemStatusFields ∧
     "uptime_ms" ∈ systemStatusFields ∧
     "ai_provider" ∈ systemStatusFields ∧
     "embedding_provider" ∈ systemStatusFields ∧
     "indexed_files" ∈ systemStatusFields ∧
     "indexed_chunks" ∈ systemStatusFields ∧
     "learning_trend" ∈ systemStatusFields) ∧
    ∀ e : EngineState, (engineGetStatus e).2 = e :=
  ⟨by decide, fun _ => rfl⟩

/-- C6 counterexample: with a backend whose update_settings rejects, the
store's updateSettings completes normally - the caller receives ok, not the
failure - so the failure is not reported to the caller (the stored settings
do stay unchanged). -/
theorem C6_counterexample :
    failSettingsBackend.update_settings settings1 =
      Except.error "disk full" ∧
    storeUpdateSettings failSettingsBackend stateWithSettings settings1 =
      (stateWithSettings, Except.ok ()) :=
  ⟨rfl, rfl⟩

/-- C6 amended: if persisting a settings update fails, the failure is logged
and swallowed - the caller observes normal completion rather than an error -
and the stored settings remain exactly as they were before the failed call. -/
theorem C6_update_settings_failure_swallowed (b : Backend) (s : AppState)
    (st : Settings) (e : String) (h : b.update_settings st = Except.error e) :
    storeUpdateSettings b s st = (s, Except.ok ()) := by
  simp [storeUpdateSettings, h]

/-- Witness for C6 amended at a concrete failing backend. -/
theorem C6_update_settings_failure_swallowed_witness :
    storeUpdateSettings failSettingsBackend stateWithSettings settings1 =
      (stateWithSettings, Except.ok ()) :=
  C6_update_settings_failure_swallowed failSettingsBackend stateWithSettings
    settings1 "disk full" rfl

/-- C7: every memory stored via remember, and every memory returned by recall,
carries a semantic type among exactly the eight values Semantic, Episodic,
Procedural, Working, Meta, Causal, Goal, Emotional; these are also exactly
the TypeBadge keys of the results list. -/
theorem C7_memory_types_among_eight (store : List EngineMemory)
    (content ty fid : String) (imp : Rat) (store2 : List EngineMemory)
    (mid : String) (k : Nat)
    (_h : engineRemember store content ty imp fid = some (store2, mid)) :
    memoryTypeNames =
      ["Semantic", "Episodic", "Procedural", "Working", "Meta", "Causal",
       "Goal", "Emotional"] ∧
    typeBadgeKeys = memoryTypeNames ∧
    (∀ m ∈ store2, m.memory_type.name ∈ memoryTypeNames) ∧
    (∀ m ∈ engineRecall store2 k, m.memory_type.name ∈ memoryTypeNames) :=
  ⟨rfl, rfl, fun m _ => memoryType_name_mem m.memory_type,
   fun m _ => memoryType_name_mem m.memory_type⟩

/-- Witness for C7 at a concrete remember call. -/
theorem C7_memory_types_among_eight_witness :
    engineRemember [] "Buy milk" "semantic" (1/2) "m-7" =
      some ([mem7], "m-7") ∧
    ∀ m ∈ engineRecall [mem7] 5, m.memory_type.name ∈ memoryTypeNames :=
  ⟨rfl,
   (C7_memory_types_among_eight [] "Buy milk" "semantic" "m-7" (1/2) [mem7]
      "m-7" 5 rfl).2.2.2⟩

/-- C8: when the file-search backend call fails but recall and think succeed,
the combined search still resolves: the memories and think result are stored
together with an empty file list, isSearching is cleared, and no error
escapes to the user. -/
theorem C8_file_search_failure_recovered (b : Backend) (s : AppState)
    (q : String) (mems : List Memory) (tr : ThinkResult) (e : String)
    (h1 : b.recallOp q 10 = Except.ok mems) (h2 : b.think q = Except.ok tr)
    (h3 : b.search_files q 10 = Except.error e) :
    storeSearch b s q =
      { s with query := q, isSearching := false,
               results := { memories := mems, files := [],
                            thinkResult := some tr } } := by
  simp [storeSearch, h1, h2, h3]

/-- Witness for C8 at a concrete backend with a failing file search. -/
theorem C8_file_search_failure_recovered_witness :
    storeSearch failFilesBackend state0 "milk" =
      { state0 with query := "milk", isSearching := false,
                    results := { memories := [mem1], files := [],
                                 thinkResult := some trA } } :=
  C8_file_search_failure_recovered failFilesBackend state0 "milk" [mem1] trA
    "file index offline" rfl rfl rfl

/-- C9: clearResults sets exactly the query to the empty string and the
results to empty memories, empty files and no think result, and leaves mode,
isSearching, recentMemories, status, settings and clipboardHistory
unchanged. -/
theorem C9_clearResults_frame (s : AppState) :
    (clearResults s).query = "" ∧
    (clearResults s).results =
      { memories := [], files := [], thinkResult := none } ∧
    (clearResults s).mode = s.mode ∧
    (clearResults s).isSearching = s.isSearching ∧
    (clearResults s).recentMemories = s.recentMemories ∧
    (clearResults s).status = s.status ∧
    (clearResults s).settings = s.settings ∧
    (clearResults s).clipboardHistory = s.clipboardHistory :=
  ⟨rfl, rfl, rfl, rfl, rfl, rfl, rfl, rfl⟩

/-- C10: while the mode is remember, a text change never emits a search
command; a change emits only the debounced scheduleSearch (never an immediate
search), and only in search mode, for a non-whitespace query, for its trimmed
text. -/
theorem C10_remember_mode_never_searches (value : String) (mode : Mode)
    (q : String) :
    (SearchCmd.scheduleSearch q ∉ handleChange Mode.remember value) ∧
    (SearchCmd.searchNow q ∉ handleChange mode value) ∧
    (SearchCmd.scheduleSearch q ∈ handleChange mode value →
      mode = Mode.search ∧ jsTrim value ≠ "" ∧ q = jsTrim value) := by
  cases mode with
  | search =>
      simp [handleChange]
      split <;> simp_all [string_length_zero]
  | remember => simp [handleChange]

/-- Witness for C10 at a concrete remember-mode change. -/
theorem C10_remember_mode_never_searches_witness :
    SearchCmd.scheduleSearch "hi" ∉ handleChange Mode.remember "hi" :=
  (C10_remember_mode_never_searches "hi" Mode.search "hi").1

end Superbrain
